import Mathlib

/-
Shallow embedding of the audit/authorization core of the curelia-health
backend (curelia-platform/backend/app): the user/audit/patient data model,
the password and token authentication functions (core/security.py), the
login endpoint (api/api_v1/endpoints/auth.py), the patient router
(api/v1/patients/router.py), the soft-delete query listener
(models/base.py) and the audit/HIPAA middleware (middleware/*.py).

Conventions of the embedding:
- uuid ids are Nat, timestamps are Int seconds since the epoch;
- the bcrypt primitive `verify_password` is an external collaborator and is
  passed in as a function argument `verify : String → String → Bool`;
- a SQLAlchemy session holding rows is a record of lists; attribute
  mutation followed by `commit()` is an in-place row replacement; an
  `AuditLog.log`/`session.add` of an audit row appends it to `auditLogs`
  (storage durability itself is an excluded collaborator);
- Python `enum` attribute access is embedded by a partial lookup from the
  attribute name, so a reference to a member that the enum does not declare
  is `none` (an `AttributeError` at run time).
-/

namespace Curelia

/-- `UserRole` enum from models/user.py (its exact five members). -/
inductive UserRole
  | ADMIN
  | STAFF
  | CAREGIVER
  | CLIENT
  | FAMILY
deriving DecidableEq, Repr

/-- Python attribute access `UserRole.<name>`: `none` models `AttributeError`. -/
def UserRole.attr : String → Option UserRole
  | "ADMIN" => some .ADMIN
  | "STAFF" => some .STAFF
  | "CAREGIVER" => some .CAREGIVER
  | "CLIENT" => some .CLIENT
  | "FAMILY" => some .FAMILY
  | _ => none

/-- `AuditAction` enum from models/audit.py (its exact sixteen members). -/
inductive AuditAction
  | LOGIN
  | LOGOUT
  | LOGIN_FAILED
  | PASSWORD_CHANGED
  | PASSWORD_RESET
  | ACCESS
  | ACCESS_DENIED
  | EXPORT
  | PRINT
  | CREATE
  | UPDATE
  | DELETE
  | RESTORE
  | CLOCK_IN
  | CLOCK_OUT
  | EVV_OVERRIDE
  | CONFIGURATION
  | SYSTEM
deriving DecidableEq, Repr

/-- Python attribute access `AuditAction.<name>`: `none` models `AttributeError`.
There is no `READ` member; viewing data is the `ACCESS` member. -/
def AuditAction.attr : String → Option AuditAction
  | "LOGIN" => some .LOGIN
  | "LOGOUT" => some .LOGOUT
  | "LOGIN_FAILED" => some .LOGIN_FAILED
  | "PASSWORD_CHANGED" => some .PASSWORD_CHANGED
  | "PASSWORD_RESET" => some .PASSWORD_RESET
  | "ACCESS" => some .ACCESS
  | "ACCESS_DENIED" => some .ACCESS_DENIED
  | "EXPORT" => some .EXPORT
  | "PRINT" => some .PRINT
  | "CREATE" => some .CREATE
  | "UPDATE" => some .UPDATE
  | "DELETE" => some .DELETE
  | "RESTORE" => some .RESTORE
  | "CLOCK_IN" => some .CLOCK_IN
  | "CLOCK_OUT" => some .CLOCK_OUT
  | "EVV_OVERRIDE" => some .EVV_OVERRIDE
  | "CONFIGURATION" => some .CONFIGURATION
  | "SYSTEM" => some .SYSTEM
  | _ => none

/-- `PatientStatus` enum from models/patient.py. -/
inductive PatientStatus
  | ACTIVE
  | INACTIVE
  | DISCHARGED
  | DECEASED
deriving DecidableEq, Repr

/-- A row of the `audit_logs` table (models/audit.py): the columns the
audited code paths set. The JSONB columns (`metadata`, `old_values`,
`new_values`) are carried nowhere by the paths embedded here and are left
out of the record. -/
structure AuditLog where
  user_id : Option Nat := none
  action : AuditAction
  resource_type : Option String := none
  resource_id : Option Nat := none
  description : String
  ip_address : Option String := none
  user_agent : Option String := none
  request_id : Option String := none
deriving DecidableEq, Repr

/-- A row of the `users` table (models/user.py): the authentication,
role and lockout columns read or written by the embedded paths. -/
structure User where
  id : Nat
  email : String
  hashed_password : String
  role : UserRole
  is_active : Bool := true
  is_locked : Bool := false
  failed_login_attempts : Nat := 0
  password_changed_at : Option Int := none
  last_login_at : Option Int := none
deriving DecidableEq, Repr

/-- A row of the `patients` table (models/patient.py): identity, the
columns the list filters touch, and the BaseModel/AuditMixin columns
(`is_deleted`, `created_by_id`, `updated_by_id`). The remaining PHI
columns are never read by the embedded control flow. -/
structure Patient where
  id : Nat
  first_name : String
  last_name : String
  middle_name : Option String := none
  medical_record_number : Option String := none
  status : PatientStatus := .ACTIVE
  is_high_risk : Bool := false
  is_deleted : Bool := false
  created_by_id : Option Nat := none
  updated_by_id : Option Nat := none
deriving DecidableEq, Repr

/-- `Patient.full_name` property from models/patient.py. -/
def Patient.full_name (p : Patient) : String :=
  match p.middle_name with
  | some m => p.first_name ++ " " ++ m ++ " " ++ p.last_name
  | none => p.first_name ++ " " ++ p.last_name

/-- The configuration fields of `Settings` (config.py) that the embedded
paths read. -/
structure Settings where
  API_V1_STR : String := "/api/v1"
  HIPAA_ENABLE_AUDIT_LOGGING : Bool := true
  HIPAA_SESSION_TIMEOUT_MINUTES : Nat := 30
  HIPAA_PASSWORD_EXPIRY_DAYS : Nat := 90
deriving DecidableEq, Repr

/-- The default `Settings()` instance of config.py. -/
def defaultSettings : Settings := {}

/-- The per-request transport context the handlers read:
`request.client.host` and the `user-agent` header. -/
structure RequestCtx where
  clientHost : String
  userAgent : Option String := none
deriving DecidableEq, Repr

/-! ## Session/credential guard: core/security.py -/

/-- The state `authenticate_user` and `get_current_user` act on: the
`users` table plus the audit rows added to the session. -/
structure AuthDb where
  users : List User
  auditLogs : List AuditLog
deriving DecidableEq, Repr

/-- `db.query(models.User).filter(models.User.email == email).first()`. -/
def findUserByEmail (users : List User) (email : String) : Option User :=
  users.find? (fun u => u.email == email)

/-- `db.commit()` after mutating the attributes of a loaded user row:
the row with the same id is replaced by the mutated object. -/
def updateUsers (users : List User) (u : User) : List User :=
  users.map (fun v => if v.id == u.id then u else v)

/-- The mutation lines 57-61 of security.py: increment
`failed_login_attempts` by one and set `is_locked` when the incremented
counter has reached 5. -/
def failedLoginUpdate (u : User) : User :=
  let attempts := u.failed_login_attempts + 1
  { u with failed_login_attempts := attempts,
           is_locked := if attempts ≥ 5 then true else u.is_locked }

/-- The `AuditLog.log` call of the password-mismatch branch of
`authenticate_user` (security.py lines 66-73). -/
def loginFailedEntry (u : User) (email : String) : AuditLog :=
  { user_id := some u.id
    action := .LOGIN_FAILED
    resource_type := some "User"
    resource_id := some u.id
    description := "Failed login attempt for " ++ email }

/-- The password-expiry check of `authenticate_user` (security.py lines
82-85): `password_changed_at` set, a truthy (nonzero) expiry setting, and
more whole days elapsed than the setting. A Python `timedelta.days` is the
floor of the span in days, hence `Int.fdiv` by 86400. -/
def passwordExpired (cfg : Settings) (now : Int) (u : User) : Bool :=
  match u.password_changed_at with
  | none => false
  | some t =>
    if cfg.HIPAA_PASSWORD_EXPIRY_DAYS == 0 then false
    else decide ((now - t).fdiv 86400 > (cfg.HIPAA_PASSWORD_EXPIRY_DAYS : Int))

/-- `authenticate_user(db, email, password)` from core/security.py.
`verify` is the external bcrypt `verify_password` collaborator. Returns
the session state after the call together with the value returned. -/
def authenticate_user (verify : String → String → Bool) (cfg : Settings)
    (now : Int) (db : AuthDb) (email password : String) :
    AuthDb × Option User :=
  match findUserByEmail db.users email with
  | none => (db, none)
  | some user =>
    if !(verify password user.hashed_password) then
      let user' := failedLoginUpdate user
      ({ users := updateUsers db.users user'
         auditLogs := db.auditLogs ++ [loginFailedEntry user email] }, none)
    else if !user.is_active || user.is_locked then
      (db, none)
    else if passwordExpired cfg now user then
      (db, none)
    else
      let user' := { user with failed_login_attempts := 0, last_login_at := some now }
      ({ db with users := updateUsers db.users user' }, some user')

/-- The decoded claims of a bearer token: `payload.get("sub")` (the
referenced user id; issued as `str(user.id)`) and `payload.get("exp")`. -/
structure TokenPayload where
  sub : Option Nat := none
  exp : Option Int := none
deriving DecidableEq, Repr

/-- A bearer token as `jwt.decode` sees it: whether the signature
validates, and the decoded payload. -/
structure Token where
  sigValid : Bool
  payload : TokenPayload
deriving DecidableEq, Repr

/-- `get_current_user(db, token)` from core/security.py: `jwt.decode`
fails (`PyJWTError` → `None`) on a bad signature or an expiry in the past
(the function's own `payload["exp"] < time.time()` re-check tests the same
bound); a missing `sub` gives `None`; then the user row is looked up, and
`None` is returned if it is missing or `is_active` is false. No other
column of the row is checked. -/
def get_current_user (now : Int) (db : AuthDb) (tok : Token) : Option User :=
  if !tok.sigValid then none
  else if (match tok.payload.exp with
           | some e => decide (e < now)
           | none => false) then none
  else
    match tok.payload.sub with
    | none => none
    | some uid =>
      match db.users.find? (fun u => u.id == uid) with
      | none => none
      | some user => if !user.is_active then none else some user

/-! ## Login endpoint: api/api_v1/endpoints/auth.py -/

/-- The value `login` returns: 401 Unauthorized, or the issued token data. -/
inductive LoginResult
  | unauthorized
  | token (userId : Nat) (email : String) (role : UserRole)
deriving DecidableEq, Repr

/-- The `login` endpoint (auth.py lines 21-70): calls
`authenticate_user`; on `None` adds one `LOGIN_FAILED` audit row (with no
user id) and raises 401; on success adds one `LOGIN` audit row and
returns the token data. -/
def login (verify : String → String → Bool) (cfg : Settings) (now : Int)
    (req : RequestCtx) (db : AuthDb) (username password : String) :
    AuthDb × LoginResult :=
  let r := authenticate_user verify cfg now db username password
  match r.2 with
  | none =>
    let entry : AuditLog :=
      { action := .LOGIN_FAILED
        description := "Failed login attempt for " ++ username
        ip_address := some req.clientHost
        user_agent := req.userAgent }
    ({ r.1 with auditLogs := r.1.auditLogs ++ [entry] }, .unauthorized)
  | some u =>
    let entry : AuditLog :=
      { user_id := some u.id
        action := .LOGIN
        description := "Successful login for " ++ u.email
        ip_address := some req.clientHost
        user_agent := req.userAgent }
    ({ r.1 with auditLogs := r.1.auditLogs ++ [entry] }, .token u.id u.email u.role)

/-- One password-authentication attempt viewed as a transformer of the
session state (the first component of `authenticate_user`). -/
def authAttempt (verify : String → String → Bool) (cfg : Settings)
    (now : Int) (email pw : String) : AuthDb → AuthDb :=
  fun db => (authenticate_user verify cfg now db email pw).1

/-! ## Patients store and soft-delete listener: models/base.py,
api/v1/patients/router.py -/

/-- The state the patient endpoints act on: the `patients` table plus the
audit rows added to the session. -/
structure Db where
  patients : List Patient
  auditLogs : List AuditLog
deriving DecidableEq, Repr

/-- An ORM SELECT over patients, reduced to its WHERE criteria: the
conjunction of row predicates the statement carries. -/
structure SelectStmt where
  whereCriteria : List (Patient → Bool)

/-- The `_add_soft_delete_filter` `do_orm_execute` listener of
models/base.py. For a select that is not a column load and whose
execution options do not carry `include_deleted=True`, the handler
reassigns `execute_state.statement` to
`statement.options(~statement._where_criteria.contains(...))`: `options`
configures loader options and never adds a predicate to the WHERE
criteria (as written the expression also reads a `contains` attribute
that the criteria tuple does not have). On no path is a
`is_deleted == False` predicate ANDed into the statement, so the WHERE
criteria pass through unchanged. -/
def addSoftDeleteFilterListener (isSelect isColumnLoad includeDeleted : Bool)
    (stmt : SelectStmt) : SelectStmt :=
  if isSelect && !isColumnLoad && !includeDeleted then
    { whereCriteria := stmt.whereCriteria }
  else stmt

/-- Executing a patient SELECT: the rows satisfying every WHERE criterion,
after the listener has run on the statement. -/
def runSelect (stmt : SelectStmt) (rows : List Patient) : List Patient :=
  rows.filter (fun p => (addSoftDeleteFilterListener true false false stmt).whereCriteria.all (fun c => c p))

/-- Errors a Python handler body can raise before producing a response. -/
inductive PyError
  | attributeError
  | multipleResults
deriving DecidableEq, Repr

/-- `Result.scalar_one_or_none()`: `None` for no row, the row when there
is exactly one, `MultipleResultsFound` otherwise. -/
def scalarOneOrNone (l : List Patient) : Except PyError (Option Patient) :=
  match l with
  | [] => .ok none
  | [p] => .ok (some p)
  | _ => .error .multipleResults

/-- Char-list prefix test used by the ILIKE embedding. -/
def charsPre : List Char → List Char → Bool
  | [], _ => true
  | _ :: _, [] => false
  | a :: as, b :: bs => a == b && charsPre as bs

/-- `s.startswith(pat)` over the character list. -/
def strStartsWith (s pat : String) : Bool := charsPre pat.data s.data

/-- `s.endswith(pat)` over the character list. -/
def strEndsWith (s pat : String) : Bool := charsPre pat.data.reverse s.data.reverse

/-- Case-insensitive substring test: `column.ilike(f"%{term}%")`. -/
def ilikeContains (hay needle : String) : Bool :=
  let h := hay.toLower.toList
  let n := needle.toLower.toList
  (List.range (h.length + 1)).any (fun i => charsPre n (h.drop i))

/-- Python `str()` of an optional string (`None` when absent). -/
def pyOptStr : Option String → String
  | none => "None"
  | some s => s

/-- Python `str()` of a `PatientStatus` value. -/
def pyStatusStr : PatientStatus → String
  | .ACTIVE => "PatientStatus.ACTIVE"
  | .INACTIVE => "PatientStatus.INACTIVE"
  | .DISCHARGED => "PatientStatus.DISCHARGED"
  | .DECEASED => "PatientStatus.DECEASED"

/-- Python `str()` of an optional `PatientStatus`. -/
def pyOptStatusStr : Option PatientStatus → String
  | none => "None"
  | some st => pyStatusStr st

/-- Python `str()` of an optional bool. -/
def pyOptBoolStr : Option Bool → String
  | none => "None"
  | some true => "True"
  | some false => "False"

/-! ## list_patients (router.py lines 90-151) -/

/-- The statement `list_patients` builds (lines 106-130): the search,
status and high-risk filters, ANDed when present. No `is_deleted`
predicate and no `includeDeleted` request parameter exist on this path. -/
def listPatientsStmt (search : Option String) (statusF : Option PatientStatus)
    (highRisk : Option Bool) : SelectStmt :=
  let searchFilters : List (Patient → Bool) :=
    match search with
    | some s =>
      [fun p => ilikeContains p.first_name s || ilikeContains p.last_name s ||
        (match p.medical_record_number with
         | some m => ilikeContains m s
         | none => false)]
    | none => []
  let statusFilters : List (Patient → Bool) :=
    match statusF with
    | some st => [fun p => p.status == st]
    | none => []
  let riskFilters : List (Patient → Bool) :=
    match highRisk with
    | some hr => [fun p => p.is_high_risk == hr]
    | none => []
  { whereCriteria := searchFilters ++ statusFilters ++ riskFilters }

/-- The rows `list_patients` obtains from `db.execute(query)` (lines
132-137): the filtered table, paginated by `offset(skip).limit(limit)`. -/
def listPatientsQuery (search : Option String) (statusF : Option PatientStatus)
    (highRisk : Option Bool) (skip limit : Nat) (db : Db) : List Patient :=
  ((runSelect (listPatientsStmt search statusF highRisk) db.patients).drop skip).take limit

/-- The action kind the read-access audit entry of `list_patients` (line
142) names: `AuditAction.READ`. -/
def listPatientsAuditAction : Option AuditAction := AuditAction.attr "READ"

/-- `list_patients` (lines 90-151): run the query, then add one read
audit entry; evaluating `AuditAction.READ` raises `AttributeError`
(`none`), in which case no entry is added and the request errors. -/
def list_patients (req : RequestCtx) (search : Option String)
    (statusF : Option PatientStatus) (highRisk : Option Bool)
    (skip limit : Nat) (user : User) (db : Db) :
    Except PyError (Db × List Patient) :=
  let pats := listPatientsQuery search statusF highRisk skip limit db
  match listPatientsAuditAction with
  | none => .error .attributeError
  | some a =>
    let entry : AuditLog :=
      { user_id := some user.id
        action := a
        resource_type := some "Patient"
        description := "Listed patients with filters: search=" ++ pyOptStr search ++
          ", status=" ++ pyOptStatusStr statusF ++ ", high_risk=" ++ pyOptBoolStr highRisk
        ip_address := some req.clientHost
        user_agent := req.userAgent }
    .ok ({ db with auditLogs := db.auditLogs ++ [entry] }, pats)

/-! ## create_patient (router.py lines 32-87) -/

/-- The request body fields of `PatientCreate` the embedded flow copies
into the new row. -/
structure PatientCreate where
  first_name : String
  last_name : String
  middle_name : Option String := none
  medical_record_number : Option String := none
  status : PatientStatus := .ACTIVE
  is_high_risk : Bool := false
deriving DecidableEq, Repr

/-- The value `create_patient` produces: the created row, or 403. -/
inductive CreateResult
  | created (p : Patient)
  | forbidden
deriving DecidableEq, Repr

/-- The role list of the permission check on line 45:
`[UserRole.ADMIN, UserRole.DOCTOR, UserRole.NURSE]`. Building it resolves
each name on `UserRole`; `DOCTOR` and `NURSE` are not members, so the
list fails to evaluate (`AttributeError`) and `STAFF` appears nowhere in
it. -/
def createPatientAllowedRoles : Option (List UserRole) :=
  ["ADMIN", "DOCTOR", "NURSE"].mapM UserRole.attr

/-- `create_patient` (lines 32-87): resolve the allowed-role list (which
raises before any row is touched); a user outside it gets one
`ACCESS_DENIED` audit entry and 403; otherwise the row is inserted with
`created_by_id`/`updated_by_id` set to the actor and one `CREATE` audit
entry is added. -/
def create_patient (req : RequestCtx) (pd : PatientCreate) (newId : Nat)
    (user : User) (db : Db) : Except PyError (Db × CreateResult) :=
  match createPatientAllowedRoles with
  | none => .error .attributeError
  | some allowed =>
    if !(allowed.contains user.role) then
      let entry : AuditLog :=
        { user_id := some user.id
          action := .ACCESS_DENIED
          resource_type := some "Patient"
          description := "Unauthorized attempt to create patient by " ++ user.email
          ip_address := some req.clientHost
          user_agent := req.userAgent }
      .ok ({ db with auditLogs := db.auditLogs ++ [entry] }, .forbidden)
    else
      let patient : Patient :=
        { id := newId
          first_name := pd.first_name
          last_name := pd.last_name
          middle_name := pd.middle_name
          medical_record_number := pd.medical_record_number
          status := pd.status
          is_high_risk := pd.is_high_risk
          created_by_id := some user.id
          updated_by_id := some user.id }
      let entry : AuditLog :=
        { user_id := some user.id
          action := .CREATE
          resource_type := some "Patient"
          resource_id := some patient.id
          description := "Created patient record for " ++ patient.full_name
          ip_address := some req.clientHost
          user_agent := req.userAgent }
      .ok ({ patients := db.patients ++ [patient]
             auditLogs := db.auditLogs ++ [entry] }, .created patient)

/-! ## delete_patient (router.py lines 240-299) -/

/-- The value `delete_patient` produces: 204, 404 or 403. -/
inductive DeleteResult
  | noContent
  | notFound
  | forbidden
deriving DecidableEq, Repr

/-- Modelled from the spec: `Patient.soft_delete(actor_id)` is called by
the router (lines 283 and 527) but is not defined in the sources
provided; per §4.3, `softDelete` "sets the flag true, updated-by to
actor; does not physically remove the row". -/
def Patient.soft_delete (p : Patient) (actorId : Nat) : Patient :=
  { p with is_deleted := true, updated_by_id := some actorId }

/-- `delete_patient` (lines 240-299): a non-ADMIN actor gets exactly one
`ACCESS_DENIED` audit entry — carrying the actor id, the attempted
resource type and id, and the request context — added and committed
before the 403 is raised, with the patients table untouched. An ADMIN
actor soft-deletes the looked-up row and one `DELETE` audit entry is
added. -/
def delete_patient (req : RequestCtx) (patientId : Nat) (user : User)
    (db : Db) : Except PyError (Db × DeleteResult) :=
  if user.role != .ADMIN then
    let entry : AuditLog :=
      { user_id := some user.id
        action := .ACCESS_DENIED
        resource_type := some "Patient"
        resource_id := some patientId
        description := "Unauthorized attempt to delete patient by " ++ user.email
        ip_address := some req.clientHost
        user_agent := req.userAgent }
    .ok ({ db with auditLogs := db.auditLogs ++ [entry] }, .forbidden)
  else
    match scalarOneOrNone (runSelect { whereCriteria := [fun p => p.id == patientId] } db.patients) with
    | .error e => .error e
    | .ok none => .ok (db, .notFound)
    | .ok (some patient) =>
      let p' := patient.soft_delete user.id
      let entry : AuditLog :=
        { user_id := some user.id
          action := .DELETE
          resource_type := some "Patient"
          resource_id := some p'.id
          description := "Soft deleted patient record for " ++ p'.full_name
          ip_address := some req.clientHost
          user_agent := req.userAgent }
      .ok ({ patients := db.patients.map (fun q => if q.id == patient.id then p' else q)
             auditLogs := db.auditLogs ++ [entry] }, .noContent)

/-! ## Audit middleware: middleware/audit_middleware.py -/

/-- `AuditMiddleware.dispatch`'s HTTP-method → action mapping (lines
75-84). -/
def methodToAction (m : String) : AuditAction :=
  if m == "GET" then .ACCESS
  else if m == "POST" then .CREATE
  else if m == "PUT" || m == "PATCH" then .UPDATE
  else if m == "DELETE" then .DELETE
  else .ACCESS

/-- What one pass of `AuditMiddleware.dispatch` produces once the inner
handler has returned: the response status handed back to the caller, the
audit rows durably committed by the middleware, how many write attempts
were made, whether the write failure was logged via the application
logger, and whether any error was raised to the caller on account of the
audit write. -/
structure AuditMwOutcome where
  responseStatus : Nat
  persisted : List AuditLog
  writeAttempts : Nat
  errorLogged : Bool
  raisedToCaller : Bool
deriving DecidableEq, Repr

/-- `AuditMiddleware.dispatch` (lines 31-117) for a request whose inner
handler returned `responseStatus`. `commitOk` is whether the audit
store's `commit` succeeds. When logging is enabled and the path is not a
health check, one write is attempted inside `try/except`: on failure the
exception is caught, `logger.error` is called, nothing is retried, and
the response is returned unchanged with no error raised to the caller. -/
def auditDispatch (cfg : Settings) (method path clientHost : String)
    (userAgent : Option String) (requestId : String) (userId : Option Nat)
    (responseStatus : Nat) (commitOk : Bool) : AuditMwOutcome :=
  if !cfg.HIPAA_ENABLE_AUDIT_LOGGING then
    { responseStatus, persisted := [], writeAttempts := 0,
      errorLogged := false, raisedToCaller := false }
  else if strEndsWith path "/health" then
    { responseStatus, persisted := [], writeAttempts := 0,
      errorLogged := false, raisedToCaller := false }
  else
    let entry : AuditLog :=
      { user_id := userId
        action := methodToAction method
        description := method ++ " " ++ path
        ip_address := some clientHost
        user_agent := userAgent
        request_id := some requestId }
    if commitOk then
      { responseStatus, persisted := [entry], writeAttempts := 1,
        errorLogged := false, raisedToCaller := false }
    else
      { responseStatus, persisted := [], writeAttempts := 1,
        errorLogged := true, raisedToCaller := false }

/-! ## HIPAA middleware: middleware/hipaa_middleware.py -/

/-- `HIPAAMiddleware._is_public_endpoint` (lines 59-71). -/
def isPublicEndpoint (cfg : Settings) (path : String) : Bool :=
  let publicPaths : List String :=
    ["/health", "/api/docs", "/api/redoc", "/api/openapi.json",
     cfg.API_V1_STR ++ "/auth/login",
     cfg.API_V1_STR ++ "/auth/register",
     cfg.API_V1_STR ++ "/auth/reset-password"]
  publicPaths.any (fun pp => strStartsWith path pp)

/-- `HIPAAMiddleware._is_session_expired` (lines 73-91): false when no
authenticated user id is attached to the request state or there is no
session; otherwise the inactivity span since `session.get("last_activity",
0)` is compared against the configured timeout in seconds. -/
def isSessionExpired (cfg : Settings) (now : Int) (userId : Option Nat)
    (hasSession : Bool) (lastActivity : Option Int) : Bool :=
  match userId with
  | none => false
  | some _ =>
    if !hasSession then false
    else decide (now - lastActivity.getD 0 > (cfg.HIPAA_SESSION_TIMEOUT_MINUTES : Int) * 60)

/-- What one pass of `HIPAAMiddleware.dispatch` produces: whether the 401
session-expired response was returned, whether the inner handler was
invoked, and the session's `last_activity` value afterwards. -/
structure HipaaOutcome where
  sessionExpiredRejected : Bool
  handlerCalled : Bool
  lastActivityAfter : Option Int
deriving DecidableEq, Repr

/-- `HIPAAMiddleware.dispatch` (lines 29-57): public endpoints pass
through; an expired session is answered with the 401 session-expired
response before `call_next` runs, leaving `last_activity` untouched;
otherwise `last_activity` is refreshed to `now` when a user id is
attached to the request state and the handler runs. (Theorems instantiate
this with a session present, i.e. the session middleware installed.) -/
def hipaaDispatch (cfg : Settings) (now : Int) (path : String)
    (userId : Option Nat) (hasSession : Bool) (lastActivity : Option Int) :
    HipaaOutcome :=
  if isPublicEndpoint cfg path then
    { sessionExpiredRejected := false, handlerCalled := true,
      lastActivityAfter := lastActivity }
  else if isSessionExpired cfg now userId hasSession lastActivity then
    { sessionExpiredRejected := true, handlerCalled := false,
      lastActivityAfter := lastActivity }
  else
    { sessionExpiredRejected := false, handlerCalled := true,
      lastActivityAfter := if userId.isSome then some now else lastActivity }

/-! ## Concrete fixtures used by witnesses and counterexamples -/

/-- A stand-in for the external bcrypt verifier: plain equality. -/
def exVerify : String → String → Bool := fun p h => p == h

/-- A locked but active user. -/
def exLockedUser : User :=
  { id := 1, email := "jane@x.com", hashed_password := "pw", role := .STAFF,
    is_locked := true }

/-- An inactive user. -/
def exInactiveUser : User :=
  { id := 2, email := "bob@x.com", hashed_password := "pw", role := .STAFF,
    is_active := false }

/-- An office-staff user. -/
def exStaffUser : User :=
  { id := 3, email := "staff@x.com", hashed_password := "pw", role := .STAFF }

/-- An administrator. -/
def exAdminUser : User :=
  { id := 4, email := "root@x.com", hashed_password := "pw", role := .ADMIN }

/-- A fresh user with a zero failed-login counter. -/
def exFreshUser : User :=
  { id := 5, email := "fresh@x.com", hashed_password := "pw", role := .STAFF }

/-- A request context. -/
def exReq : RequestCtx := { clientHost := "10.0.0.1", userAgent := some "browser" }

/-- A soft-deleted patient row. -/
def exDeletedPatient : Patient :=
  { id := 11, first_name := "Ann", last_name := "Lee", is_deleted := true }

/-- A live patient row. -/
def exPatient : Patient := { id := 12, first_name := "Tom", last_name := "Ray" }

/-- A create-patient request body. -/
def exPatientCreate : PatientCreate := { first_name := "New", last_name := "Person" }

/-! ## Helper lemmas -/

/-- `failedLoginUpdate` leaves the email unchanged. -/
theorem failedLoginUpdate_email (v : User) : (failedLoginUpdate v).email = v.email := rfl

/-- `failedLoginUpdate` leaves the stored hash unchanged. -/
theorem failedLoginUpdate_hash (v : User) :
    (failedLoginUpdate v).hashed_password = v.hashed_password := rfl

/-- Looking a user up by their own email in a one-row table finds them. -/
theorem findUserByEmail_single (v : User) : findUserByEmail [v] v.email = some v := by
  simp [findUserByEmail]

/-- A password mismatch against a one-row table: the row is replaced by
its `failedLoginUpdate`, one `LOGIN_FAILED` entry is appended, and no
user is returned. -/
theorem auth_mismatch_single (verify : String → String → Bool) (cfg : Settings)
    (now : Int) (v : User) (L : List AuditLog) (pw : String)
    (h : verify pw v.hashed_password = false) :
    authenticate_user verify cfg now ⟨[v], L⟩ v.email pw =
      (⟨[failedLoginUpdate v], L ++ [loginFailedEntry v v.email]⟩, none) := by
  unfold authenticate_user
  rw [findUserByEmail_single]
  simp [h, updateUsers, failedLoginUpdate]

/-- A locked or inactive user never authenticates by password, whatever
the password and the verifier. -/
theorem auth_none_of_locked_or_inactive (verify : String → String → Bool)
    (cfg : Settings) (now : Int) (db : AuthDb) (email password : String)
    (u : User) (hfind : findUserByEmail db.users email = some u)
    (h : u.is_locked = true ∨ u.is_active = false) :
    (authenticate_user verify cfg now db email password).2 = none := by
  unfold authenticate_user
  rw [hfind]
  cases hv : verify password u.hashed_password with
  | false => simp [hv]
  | true =>
    rcases h with h | h <;> simp [hv, h]

/-- `get_current_user` returns no user when the referenced row is
inactive, on every token shape. -/
theorem gcu_none_of_inactive (now : Int) (db : AuthDb) (tok : Token)
    (uid : Nat) (u : User)
    (hsub : tok.payload.sub = some uid)
    (hfind : db.users.find? (fun v => v.id == uid) = some u)
    (h : u.is_active = false) :
    get_current_user now db tok = none := by
  unfold get_current_user
  cases hs : tok.sigValid
  · simp
  · rw [hsub]
    cases he : (match tok.payload.exp with
                | some e => decide (e < now)
                | none => false)
    · simp only [hs, Bool.not_true, Bool.false_eq_true, if_false, he, if_false]
      rw [hfind]
      simp [h]
    · simp [he]

/-- `get_current_user` returns the referenced row whenever the token is
valid and unexpired and the row is active: no other column is checked. -/
theorem gcu_some_of_active (now : Int) (db : AuthDb) (tok : Token)
    (uid : Nat) (u : User)
    (hsig : tok.sigValid = true)
    (hexp : (match tok.payload.exp with
             | some e => decide (e < now)
             | none => false) = false)
    (hsub : tok.payload.sub = some uid)
    (hfind : db.users.find? (fun v => v.id == uid) = some u)
    (h : u.is_active = true) :
    get_current_user now db tok = some u := by
  unfold get_current_user
  rw [hsub]
  simp only [hsig, Bool.not_true, Bool.false_eq_true, if_false, hexp, if_false]
  rw [hfind]
  simp [h]

/-- Iterating `failedLoginUpdate` leaves the email unchanged. -/
theorem flu_iterate_email (u : User) : ∀ n, (failedLoginUpdate^[n] u).email = u.email := by
  intro n
  induction n with
  | zero => rfl
  | succ n ih => rw [Function.iterate_succ_apply', failedLoginUpdate_email, ih]

/-- Iterating `failedLoginUpdate` leaves the stored hash unchanged. -/
theorem flu_iterate_hash (u : User) :
    ∀ n, (failedLoginUpdate^[n] u).hashed_password = u.hashed_password := by
  intro n
  induction n with
  | zero => rfl
  | succ n ih => rw [Function.iterate_succ_apply', failedLoginUpdate_hash, ih]

/-- Each `failedLoginUpdate` adds exactly one to the counter. -/
theorem flu_iterate_attempts (u : User) :
    ∀ n, (failedLoginUpdate^[n] u).failed_login_attempts = u.failed_login_attempts + n := by
  intro n
  induction n with
  | zero => rfl
  | succ n ih =>
    rw [Function.iterate_succ_apply']
    show (failedLoginUpdate^[n] u).failed_login_attempts + 1 = u.failed_login_attempts + (n + 1)
    rw [ih, Nat.add_assoc]

/-- `failedLoginUpdate` locks the row as soon as the incremented counter
reaches 5. -/
theorem flu_locks_at_threshold (v : User) (h : v.failed_login_attempts + 1 ≥ 5) :
    (failedLoginUpdate v).is_locked = true := by
  simp [failedLoginUpdate, h]

/-- Iterated mismatched attempts on a one-row table: the row is the
iterated `failedLoginUpdate` of the original, for some audit trail. -/
theorem authAttempt_iterate (verify : String → String → Bool) (cfg : Settings)
    (now : Int) (u : User) (pw : String)
    (h : verify pw u.hashed_password = false) :
    ∀ (n : Nat) (L : List AuditLog), ∃ L' : List AuditLog,
      (authAttempt verify cfg now u.email pw)^[n] ⟨[u], L⟩ =
        ⟨[failedLoginUpdate^[n] u], L'⟩ := by
  intro n
  induction n with
  | zero => intro L; exact ⟨L, rfl⟩
  | succ n ih =>
    intro L
    obtain ⟨L', hL'⟩ := ih L
    refine ⟨L' ++ [loginFailedEntry (failedLoginUpdate^[n] u) u.email], ?_⟩
    rw [Function.iterate_succ_apply', hL', Function.iterate_succ_apply']
    show (authenticate_user verify cfg now ⟨[failedLoginUpdate^[n] u], L'⟩ u.email pw).1 = _
    have he : (failedLoginUpdate^[n] u).email = u.email := flu_iterate_email u n
    have hh : verify pw (failedLoginUpdate^[n] u).hashed_password = false := by
      rw [flu_iterate_hash]; exact h
    have := auth_mismatch_single verify cfg now (failedLoginUpdate^[n] u) L' pw hh
    rw [he] at this
    rw [this]

/-! ## Claim theorems -/

/-- C1, counterexample: the claim as stated is false. For a user whose
locked flag is true (and active flag true), `get_current_user` with a
valid, unexpired bearer token referencing that user returns the user —
it does not return no user. -/
theorem c1_counterexample :
    get_current_user 50 ⟨[exLockedUser], []⟩ ⟨true, { sub := some 1, exp := some 100 }⟩ =
      some exLockedUser
    ∧ exLockedUser.is_locked = true ∧ exLockedUser.is_active = true := by
  refine ⟨?_, rfl, rfl⟩
  rfl

/-- C1 (amended): for every user whose locked flag is true or whose
active flag is false, `authenticate_user` returns no user regardless of
credential correctness; `get_current_user` returns no user when the
referenced user's active flag is false, but it does not check the locked
flag: a locked, active user referenced by a valid unexpired token is
returned. -/
theorem c1_auth_guard :
    (∀ (verify : String → String → Bool) (cfg : Settings) (now : Int)
        (db : AuthDb) (email password : String) (u : User),
        findUserByEmail db.users email = some u →
        u.is_locked = true ∨ u.is_active = false →
        (authenticate_user verify cfg now db email password).2 = none)
    ∧ (∀ (now : Int) (db : AuthDb) (tok : Token) (uid : Nat) (u : User),
        tok.payload.sub = some uid →
        db.users.find? (fun v => v.id == uid) = some u →
        u.is_active = false →
        get_current_user now db tok = none)
    ∧ (∀ (now : Int) (db : AuthDb) (tok : Token) (uid : Nat) (u : User),
        tok.sigValid = true →
        (match tok.payload.exp with
         | some e => decide (e < now)
         | none => false) = false →
        tok.payload.sub = some uid →
        db.users.find? (fun v => v.id == uid) = some u →
        u.is_active = true →
        get_current_user now db tok = some u) :=
  ⟨fun verify cfg now db email password u hfind h =>
    auth_none_of_locked_or_inactive verify cfg now db email password u hfind h,
   fun now db tok uid u hsub hfind h =>
    gcu_none_of_inactive now db tok uid u hsub hfind h,
   fun now db tok uid u hsig hexp hsub hfind h =>
    gcu_some_of_active now db tok uid u hsig hexp hsub hfind h⟩

/-- C1, witness: the amended theorem applied at concrete inputs — the
locked user fails password authentication even with the correct password,
the inactive user fails token authentication, and the locked-but-active
user passes token authentication. -/
theorem c1_auth_guard_witness :
    (authenticate_user exVerify defaultSettings 0 ⟨[exLockedUser], []⟩ "jane@x.com" "pw").2 = none
    ∧ get_current_user 0 ⟨[exInactiveUser], []⟩ ⟨true, { sub := some 2 }⟩ = none
    ∧ get_current_user 0 ⟨[exLockedUser], []⟩ ⟨true, { sub := some 1 }⟩ = some exLockedUser :=
  ⟨c1_auth_guard.1 exVerify defaultSettings 0 ⟨[exLockedUser], []⟩ "jane@x.com" "pw"
      exLockedUser (by decide) (Or.inl rfl),
   c1_auth_guard.2.1 0 ⟨[exInactiveUser], []⟩ ⟨true, { sub := some 2 }⟩ 2
      exInactiveUser rfl (by decide) rfl,
   c1_auth_guard.2.2 0 ⟨[exLockedUser], []⟩ ⟨true, { sub := some 1 }⟩ 1
      exLockedUser rfl rfl rfl (by decide) rfl⟩

/-- C2: a wrong-password attempt increments the user's failed-login
counter by exactly 1 and sets the locked flag in the same update when the
post-increment counter reaches 5; starting from a zero counter, after
exactly 5 consecutive failed attempts the stored row has counter 5 and
locked flag true, and the next attempt with the correct password returns
no user. -/
theorem c2_lockout (verify : String → String → Bool) (cfg : Settings)
    (now : Int) (u : User) (wrongpw goodpw : String)
    (hwrong : verify wrongpw u.hashed_password = false)
    (hgood : verify goodpw u.hashed_password = true)
    (h0 : u.failed_login_attempts = 0) :
    (∀ (v : User) (L : List AuditLog) (pw : String),
        verify pw v.hashed_password = false →
        authenticate_user verify cfg now ⟨[v], L⟩ v.email pw =
          (⟨[{ v with failed_login_attempts := v.failed_login_attempts + 1,
                      is_locked := if v.failed_login_attempts + 1 ≥ 5 then true
                                   else v.is_locked }],
            L ++ [loginFailedEntry v v.email]⟩, none))
    ∧ ∃ (v : User) (L : List AuditLog),
        (authAttempt verify cfg now u.email wrongpw)^[5] ⟨[u], []⟩ = ⟨[v], L⟩
        ∧ v.failed_login_attempts = 5
        ∧ v.is_locked = true
        ∧ (authenticate_user verify cfg now ⟨[v], L⟩ u.email goodpw).2 = none := by
  constructor
  · intro v L pw h
    exact auth_mismatch_single verify cfg now v L pw h
  · obtain ⟨L', hL'⟩ := authAttempt_iterate verify cfg now u wrongpw hwrong 5 []
    refine ⟨failedLoginUpdate^[5] u, L', hL', ?_, ?_, ?_⟩
    · rw [flu_iterate_attempts, h0]
    · show (failedLoginUpdate (failedLoginUpdate^[4] u)).is_locked = true
      apply flu_locks_at_threshold
      rw [flu_iterate_attempts, h0]
    · apply auth_none_of_locked_or_inactive verify cfg now ⟨[failedLoginUpdate^[5] u], L'⟩
        u.email goodpw (failedLoginUpdate^[5] u)
      · show findUserByEmail [failedLoginUpdate^[5] u] u.email = _
        rw [← flu_iterate_email u 5]
        exact findUserByEmail_single _
      · left
        show (failedLoginUpdate (failedLoginUpdate^[4] u)).is_locked = true
        apply flu_locks_at_threshold
        rw [flu_iterate_attempts, h0]

/-- C2, witness: the lockout theorem applied to a concrete fresh user,
with a wrong password "x" and the correct password "pw". -/
theorem c2_lockout_witness :
    (∀ (v : User) (L : List AuditLog) (pw : String),
        exVerify pw v.hashed_password = false →
        authenticate_user exVerify defaultSettings 0 ⟨[v], L⟩ v.email pw =
          (⟨[{ v with failed_login_attempts := v.failed_login_attempts + 1,
                      is_locked := if v.failed_login_attempts + 1 ≥ 5 then true
                                   else v.is_locked }],
            L ++ [loginFailedEntry v v.email]⟩, none))
    ∧ ∃ (v : User) (L : List AuditLog),
        (authAttempt exVerify defaultSettings 0 exFreshUser.email "x")^[5]
            ⟨[exFreshUser], []⟩ = ⟨[v], L⟩
        ∧ v.failed_login_attempts = 5
        ∧ v.is_locked = true
        ∧ (authenticate_user exVerify defaultSettings 0 ⟨[v], L⟩
            exFreshUser.email "pw").2 = none :=
  c2_lockout exVerify defaultSettings 0 exFreshUser "x" "pw"
    (by decide) (by decide) rfl

/-- C3: evaluating the code at the failing input. A soft-deleted patient
row is returned by the default `list_patients` query (no
`includeDeleted` parameter exists on the endpoint), and the WHERE
criteria of the default statement — both as built by the endpoint and
after the `_add_soft_delete_filter` listener has run on it — contain no
predicate at all: `is_deleted == False` is never ANDed in. -/
theorem c3_soft_deleted_row_visible :
    exDeletedPatient.is_deleted = true
    ∧ exDeletedPatient ∈ listPatientsQuery none none none 0 100 ⟨[exDeletedPatient], []⟩
    ∧ (listPatientsStmt none none none).whereCriteria = []
    ∧ (addSoftDeleteFilterListener true false false
        (listPatientsStmt none none none)).whereCriteria = [] := by
  exact ⟨rfl, by decide, rfl, rfl⟩

/-- C4: a delete request by a non-administrator is answered with the 403
forbidden result, the patients table is unchanged, and exactly one
`ACCESS_DENIED` audit entry — carrying the actor id, the attempted
resource type and id, and the request context — is appended before the
error is returned. -/
theorem c4_delete_denied (req : RequestCtx) (patientId : Nat) (user : User)
    (db : Db) (h : user.role ≠ .ADMIN) :
    delete_patient req patientId user db =
      .ok ({ patients := db.patients
             auditLogs := db.auditLogs ++
               [{ user_id := some user.id
                  action := .ACCESS_DENIED
                  resource_type := some "Patient"
                  resource_id := some patientId
                  description := "Unauthorized attempt to delete patient by " ++ user.email
                  ip_address := some req.clientHost
                  user_agent := req.userAgent }] }, .forbidden) := by
  unfold delete_patient
  have hb : (user.role != UserRole.ADMIN) = true := bne_iff_ne.mpr h
  rw [hb]
  rfl

/-- C4, witness: the theorem applied to a concrete office-staff user. -/
theorem c4_delete_denied_witness :
    delete_patient exReq 12 exStaffUser ⟨[exPatient], []⟩ =
      .ok ({ patients := [exPatient]
             auditLogs :=
               [{ user_id := some exStaffUser.id
                  action := .ACCESS_DENIED
                  resource_type := some "Patient"
                  resource_id := some 12
                  description := "Unauthorized attempt to delete patient by " ++ exStaffUser.email
                  ip_address := some exReq.clientHost
                  user_agent := exReq.userAgent }] }, .forbidden) :=
  c4_delete_denied exReq 12 exStaffUser ⟨[exPatient], []⟩ (by decide)

/-- C5, counterexample: the claim as stated is false. A single
wrong-password login attempt for an existing user emits two audit
entries, not exactly one: the `LOGIN_FAILED` entry of
`authenticate_user` and the `LOGIN_FAILED` entry of the `login`
endpoint. -/
theorem c5_counterexample :
    ((login exVerify defaultSettings 0 exReq ⟨[exFreshUser], []⟩
        "fresh@x.com" "wrong").1.auditLogs).length = 2 := by
  decide

/-- C5 (amended): a password-authentication attempt through the `login`
endpoint appends exactly two audit entries when the user exists and the
password mismatches (one from `authenticate_user`, one from the
endpoint), and exactly one for every other outcome — success, unknown
user, inactive, locked, or expired password; `authenticate_user` itself
emits an entry only on password mismatch. -/
theorem c5_login_audit_count (verify : String → String → Bool)
    (cfg : Settings) (now : Int) (req : RequestCtx) (db : AuthDb)
    (username password : String) :
    ((login verify cfg now req db username password).1.auditLogs).length =
      db.auditLogs.length +
        (match findUserByEmail db.users username with
         | some u => if verify password u.hashed_password then 1 else 2
         | none => 1) := by
  unfold login authenticate_user
  cases hf : findUserByEmail db.users username with
  | none => simp
  | some u =>
    cases hv : verify password u.hashed_password with
    | false => simp [hv]
    | true =>
      cases ha : (!u.is_active || u.is_locked) with
      | true => simp [hv, ha]
      | false =>
        cases he : passwordExpired cfg now u with
        | true => simp [hv, ha, he]
        | false => simp [hv, ha, he]

/-- C6: evaluating the code at the failing input. The role list of
`create_patient`'s permission check names `UserRole.DOCTOR` and
`UserRole.NURSE`, which the closed `UserRole` enum does not declare, and
it does not name `STAFF` at all; so for an office-staff user the create
request does not succeed — building the list raises `AttributeError` and
the request errors before the authorization check completes. -/
theorem c6_staff_create_not_permitted :
    UserRole.attr "DOCTOR" = none
    ∧ UserRole.attr "NURSE" = none
    ∧ createPatientAllowedRoles = none
    ∧ create_patient exReq exPatientCreate 7 exStaffUser ⟨[], []⟩ = .error .attributeError :=
  ⟨rfl, rfl, rfl, rfl⟩

/-- C7: an administrator's delete of an existing patient soft-deletes the
row — the flag is set true and updated-by is set to the actor, with the
literal update equal to the spec-modelled `Patient.soft_delete` — the
table keeps the same number of rows, exactly one `DELETE` audit entry is
appended, and the 204 result is returned. -/
theorem c7_soft_delete (req : RequestCtx) (patientId : Nat) (user : User)
    (db : Db) (p : Patient)
    (hadmin : user.role = .ADMIN)
    (hfind : runSelect { whereCriteria := [fun q => q.id == patientId] } db.patients = [p]) :
    delete_patient req patientId user db =
      .ok ({ patients := db.patients.map (fun q =>
               if q.id == p.id then
                 { p with is_deleted := true, updated_by_id := some user.id }
               else q)
             auditLogs := db.auditLogs ++
               [{ user_id := some user.id
                  action := .DELETE
                  resource_type := some "Patient"
                  resource_id := some p.id
                  description := "Soft deleted patient record for " ++ p.full_name
                  ip_address := some req.clientHost
                  user_agent := req.userAgent }] }, .noContent)
    ∧ (db.patients.map (fun q =>
         if q.id == p.id then
           { p with is_deleted := true, updated_by_id := some user.id }
         else q)).length = db.patients.length
    ∧ ({ p with is_deleted := true, updated_by_id := some user.id } : Patient) =
        p.soft_delete user.id := by
  refine ⟨?_, List.length_map _ _, rfl⟩
  unfold delete_patient
  have hb : (user.role != UserRole.ADMIN) = false := by
    rw [hadmin]; decide
  rw [hb, hfind]
  rfl

/-- C7, witness: the theorem applied to a concrete administrator and a
concrete one-row patients table. -/
theorem c7_soft_delete_witness :
    delete_patient exReq 12 exAdminUser ⟨[exPatient], []⟩ =
      .ok ({ patients := [exPatient].map (fun q =>
               if q.id == exPatient.id then
                 { exPatient with is_deleted := true, updated_by_id := some exAdminUser.id }
               else q)
             auditLogs :=
               [{ user_id := some exAdminUser.id
                  action := .DELETE
                  resource_type := some "Patient"
                  resource_id := some exPatient.id
                  description := "Soft deleted patient record for " ++ exPatient.full_name
                  ip_address := some exReq.clientHost
                  user_agent := exReq.userAgent }] }, .noContent)
    ∧ ([exPatient].map (fun q =>
         if q.id == exPatient.id then
           { exPatient with is_deleted := true, updated_by_id := some exAdminUser.id }
         else q)).length = [exPatient].length
    ∧ ({ exPatient with is_deleted := true, updated_by_id := some exAdminUser.id } : Patient) =
        exPatient.soft_delete exAdminUser.id :=
  c7_soft_delete exReq 12 exAdminUser ⟨[exPatient], []⟩ exPatient rfl (by decide)

/-- C8, counterexample: the claim as stated is false. On an audit-write
failure the middleware returns the response unchanged with no error
raised to the caller, the entry is not persisted, and only one write
attempt is made (no retry); the failure is recorded only on the
application logger. -/
theorem c8_counterexample :
    auditDispatch defaultSettings "POST" "/api/v1/patients/" "10.0.0.1"
        (some "browser") "req-1" (some 1) 201 false =
      { responseStatus := 201, persisted := [], writeAttempts := 1,
        errorLogged := true, raisedToCaller := false } := by
  decide

/-- C8 (amended): when the audit write of the audit middleware fails on
an audited request, the exception is caught — the entry is dropped from
the store after a single write attempt with no retry, the failure is
written to the application logger and not surfaced to the caller, and
the already-produced response is returned unchanged. -/
theorem c8_audit_write_swallowed (cfg : Settings)
    (method path clientHost : String) (ua : Option String) (rid : String)
    (uid : Option Nat) (st : Nat)
    (hen : cfg.HIPAA_ENABLE_AUDIT_LOGGING = true)
    (hh : strEndsWith path "/health" = false) :
    auditDispatch cfg method path clientHost ua rid uid st false =
      { responseStatus := st, persisted := [], writeAttempts := 1,
        errorLogged := true, raisedToCaller := false } := by
  unfold auditDispatch
  rw [hen, hh]
  rfl

/-- C8, witness: the amended theorem applied at a concrete audited
request. -/
theorem c8_audit_write_swallowed_witness :
    auditDispatch defaultSettings "GET" "/api/v1/clients/" "10.0.0.2"
        (some "browser") "req-2" (some 3) 200 false =
      { responseStatus := 200, persisted := [], writeAttempts := 1,
        errorLogged := true, raisedToCaller := false } :=
  c8_audit_write_swallowed defaultSettings "GET" "/api/v1/clients/" "10.0.0.2"
    (some "browser") "req-2" (some 3) 200 rfl (by decide)

/-- C9: an authenticated request on a non-public path arriving after the
configured idle window has elapsed since the session's recorded
last-activity time is answered with the session-expired rejection, the
inner handler is not called, and the last-activity timestamp is not
refreshed. -/
theorem c9_session_timeout (cfg : Settings) (now : Int) (path : String)
    (uid : Nat) (t : Int)
    (hpub : isPublicEndpoint cfg path = false)
    (hexp : now - t > (cfg.HIPAA_SESSION_TIMEOUT_MINUTES : Int) * 60) :
    hipaaDispatch cfg now path (some uid) true (some t) =
      { sessionExpiredRejected := true, handlerCalled := false,
        lastActivityAfter := some t } := by
  unfold hipaaDispatch
  have hse : isSessionExpired cfg now (some uid) true (some t) = true := by
    unfold isSessionExpired
    simp [hexp]
  rw [hpub, hse]
  rfl

/-- C9, witness: with the default settings (30-minute window), a request
1801 seconds after the last activity is rejected without refreshing the
timestamp. -/
theorem c9_session_timeout_witness :
    hipaaDispatch defaultSettings 1801 "/api/v1/patients/" (some 1) true (some 0) =
      { sessionExpiredRejected := true, handlerCalled := false,
        lastActivityAfter := some 0 } :=
  c9_session_timeout defaultSettings 1801 "/api/v1/patients/" 1 0
    (by decide) (by decide)

/-- C10: evaluating the code at the failing input. The action kind the
read-access audit step of `list_patients` names, `AuditAction.READ`, is
not a member of the closed `AuditAction` enumeration (viewing data is
`ACCESS`), so constructing the read-access audit entry fails with
`AttributeError` and the listing request errors at its logging step. -/
theorem c10_read_action_missing :
    AuditAction.attr "READ" = none
    ∧ listPatientsAuditAction = none
    ∧ list_patients exReq none none none 0 100 exStaffUser ⟨[exPatient], []⟩ =
        .error .attributeError :=
  ⟨rfl, rfl, rfl⟩

end Curelia
